import Mathlib

/-!
Verification of the matrix pipeline of the OpenGL sampler
(modules/video_output/opengl/sampler.c).

The C code is shallowly embedded over exact rationals: every `float` /
`double` value is modelled as a `ℚ`, and the flat C arrays (all stored in
column-major order, as in the source) are modelled as total functions
`ℕ → ℚ` indexed exactly like the C arrays.  Texture handles, GL calls and
the shader-text generation are not modelled: no claim below concerns them.
-/

/-- Color spaces understood by `init_conv_matrix` (`video_color_space_t`).
Every value other than `BT601` and `BT2020` selects the BT.709 matrix, as
in the C `switch` whose `default` picks `MATRIX_BT709`. -/
inductive video_color_space_t
  | UNDEF
  | BT601
  | BT709
  | BT2020
deriving DecidableEq

/-- Color ranges (`video_color_range_t`). -/
inductive video_color_range_t
  | UNDEF
  | FULL
  | LIMITED
deriving DecidableEq

/-- Chromas (`vlc_fourcc_t`) distinguished by the conversion-matrix pipeline:
`P010`/`P016` are exempt from the bit-depth correction, and `YV12`/`YV9`/`NV21`
trigger the U/V column swap.  `NV12`, `I420` and `OTHER` stand for the
remaining chromas, which the pipeline treats uniformly. -/
inductive vlc_fourcc_t
  | P010
  | P016
  | YV12
  | YV9
  | NV21
  | NV12
  | I420
  | OTHER
deriving DecidableEq

/-- The fields of `vlc_chroma_description_t` read by `sampler_yuv_base_init`:
the sample storage size in bytes and the number of significant bits. -/
structure vlc_chroma_description_t where
  pixel_size : ℕ
  pixel_bits : ℕ
deriving DecidableEq

/-- The 4x3 limited-range expansion matrix (3 rows of 4 entries, row-major flat
array as in the C initializer `MATRIX_COLOR_RANGE_LIMITED`). -/
def MATRIX_COLOR_RANGE_LIMITED : ℕ → ℚ := fun i =>
  if i = 0 then 255/219
  else if i = 3 then -(255/219) * (16/255)
  else if i = 5 then 255/224
  else if i = 7 then -(255/224) * (128/255)
  else if i = 10 then 255/224
  else if i = 11 then -(255/224) * (128/255)
  else 0

/-- The 4x3 full-range matrix (`MATRIX_COLOR_RANGE_FULL`). -/
def MATRIX_COLOR_RANGE_FULL : ℕ → ℚ := fun i =>
  if i = 0 then 1
  else if i = 5 then 1
  else if i = 7 then -(128/255)
  else if i = 10 then 1
  else if i = 11 then -(128/255)
  else 0

/-- The 3x3 YUV-to-RGB space matrix built from the luma weights of the red and
blue components (the C macro `MATRIX_YUV_TO_RGB_`, with `KG = 1 - KR - KB`).
Row-major flat array, indexed `space_matrix[y*3+k]` as in the C code. -/
def MATRIX_YUV_TO_RGB (KR KB : ℚ) : ℕ → ℚ :=
  let KG := 1 - KR - KB
  fun i =>
    if i = 0 then 1
    else if i = 2 then 2 * (1 - KR)
    else if i = 3 then 1
    else if i = 4 then -2 * (1 - KB) * (KB / KG)
    else if i = 5 then -2 * (1 - KR) * (KR / KG)
    else if i = 6 then 1
    else if i = 7 then 2 * (1 - KB)
    else 0

def MATRIX_BT601 : ℕ → ℚ := MATRIX_YUV_TO_RGB (0.299 : ℚ) (0.114 : ℚ)

def MATRIX_BT709 : ℕ → ℚ := MATRIX_YUV_TO_RGB (0.2126 : ℚ) (0.0722 : ℚ)

def MATRIX_BT2020 : ℕ → ℚ := MATRIX_YUV_TO_RGB (0.2627 : ℚ) (0.0593 : ℚ)

/-- `init_conv_matrix`: multiply the 3x3 space matrix by the 4x3 range matrix
(`sum` over the 3 shared indices), writing the result transposed into a 4x4
column-major array, and fix the fourth row to `[0 0 0 1]` (entries 3, 7, 11
are 0 and entry 15 is 1 in column-major order).  Cell `x*4+y` (column `x`,
row `y`) holds `Σ_k space[y*3+k] * range[k*4+x]`, exactly as in the C loop. -/
def init_conv_matrix (color_space : video_color_space_t)
    (color_range : video_color_range_t) : ℕ → ℚ :=
  let space_matrix : ℕ → ℚ :=
    match color_space with
    | .BT601 => MATRIX_BT601
    | .BT2020 => MATRIX_BT2020
    | _ => MATRIX_BT709
  let range_matrix : ℕ → ℚ :=
    match color_range with
    | .FULL => MATRIX_COLOR_RANGE_FULL
    | _ => MATRIX_COLOR_RANGE_LIMITED
  fun i =>
    if i % 4 = 3 then (if i = 15 then 1 else 0)
    else
      let x := i / 4
      let y := i % 4
      space_matrix (y * 3 + 0) * range_matrix (0 * 4 + x)
        + space_matrix (y * 3 + 1) * range_matrix (1 * 4 + x)
        + space_matrix (y * 3 + 2) * range_matrix (2 * 4 + x)

/-- The pre-multiplication factor of the bit-depth correction:
`(float)((1 << 16) - 1) / ((1 << desc->pixel_bits) - 1)`. -/
def yuv_range_correction (pixel_bits : ℕ) : ℚ :=
  ((2 : ℚ) ^ 16 - 1) / ((2 : ℚ) ^ pixel_bits - 1)

/-- First stage of `sampler_yuv_base_init` after `init_conv_matrix`: if the
samples are stored on 2 bytes and the chroma is neither `P010` nor `P016`,
multiply the first `4*3` entries of the column-major matrix by
`yuv_range_correction`; otherwise leave the matrix untouched. -/
def conv_matrix_scaled (chroma : vlc_fourcc_t) (desc : vlc_chroma_description_t)
    (yuv_space : video_color_space_t) : ℕ → ℚ :=
  let matrix := init_conv_matrix yuv_space .LIMITED
  if desc.pixel_size = 2 ∧ chroma ≠ .P010 ∧ chroma ≠ .P016 then
    fun i => if i < 4 * 3 then matrix i * yuv_range_correction desc.pixel_bits
             else matrix i
  else matrix

/-- Swap columns 1 and 2 of a 4x4 column-major matrix: entries 4..7 exchange
with entries 8..11, all other entries are untouched (the three `memcpy` calls
of `sampler_yuv_base_init`). -/
def swapColumns12 (m : ℕ → ℚ) : ℕ → ℚ := fun i =>
  if 4 ≤ i ∧ i ≤ 7 then m (i + 4)
  else if 8 ≤ i ∧ i ≤ 11 then m (i - 4)
  else m i

/-- Whether the chroma stores V before U (the `bool swap_uv` of
`sampler_yuv_base_init`: `chroma == VLC_CODEC_YV12 || chroma == VLC_CODEC_YV9
|| chroma == VLC_CODEC_NV21`). -/
def swap_uv : vlc_fourcc_t → Bool
  | .YV12 => true
  | .YV9 => true
  | .NV21 => true
  | _ => false

/-- The conversion matrix produced by `sampler_yuv_base_init`: the
limited-range conversion matrix from `init_conv_matrix` (the range selector is
the constant `COLOR_RANGE_LIMITED`), then the bit-depth correction, then the
U/V column swap for the chromas that store V before U. -/
def sampler_yuv_base_init (chroma : vlc_fourcc_t)
    (desc : vlc_chroma_description_t) (yuv_space : video_color_space_t) :
    ℕ → ℚ :=
  let matrix := conv_matrix_scaled chroma desc yuv_space
  if swap_uv chroma then swapColumns12 matrix else matrix

/-- The 8 picture orientations (`video_orientation_t`). -/
inductive video_orientation_t
  | NORMAL
  | TRANSPOSED
  | ANTI_TRANSPOSED
  | HFLIPPED
  | VFLIPPED
  | ROTATED_180
  | ROTATED_90
  | ROTATED_270
deriving DecidableEq

/-- Format-level fields read by the matrix pipeline (`video_format_t`):
chroma, color space, color range, orientation, and the visible-region
geometry used by `vlc_gl_sampler_UpdatePicture`. -/
structure video_format_t where
  i_chroma : vlc_fourcc_t
  space : video_color_space_t
  color_range : video_color_range_t
  orientation : video_orientation_t
  i_x_offset : ℕ
  i_y_offset : ℕ
  i_visible_width : ℕ
  i_visible_height : ℕ
deriving DecidableEq

/-- Application of the 4x4 column-major conversion matrix to an input color
`(y, u, v, 1)`, returning output row `row` (`M[col][row]` is `m (col*4+row)`). -/
def conv_apply (m : ℕ → ℚ) (y u v : ℚ) (row : ℕ) : ℚ :=
  m (0 * 4 + row) * y + m (1 * 4 + row) * u + m (2 * 4 + row) * v
    + m (3 * 4 + row) * 1

/-- All-zero array: the content `calloc` gives to every matrix field of
`struct vlc_gl_sampler_priv` before anything is written to it. -/
def calloc_zero_matrix : ℕ → ℚ := fun _ => 0

/-- Modelled from the spec: the `MATRIX3x2_IDENTITY` constant is declared in a
header that is not part of the excerpt; per the spec the composite matrix
"degenerates to identity" when it is copied in, so it is the 2x3 identity
`[[1,0,0],[0,1,0]]` in column-major order `[1, 0, 0, 1, 0, 0]`. -/
def MATRIX3x2_IDENTITY : ℕ → ℚ := fun i =>
  if i = 0 then 1 else if i = 3 then 1 else 0

/-- The `MATRIX_SET` macro of `InitOrientationMatrix`: write the six
coefficients of the 2x3 matrix (column-major cells `c*2+r`) over the array
`matrix`, leaving any other index untouched. -/
def MATRIX_SET (c0r0 c1r0 c3r0 c0r1 c1r1 c3r1 : ℚ) (matrix : ℕ → ℚ) :
    ℕ → ℚ := fun i =>
  if i = 0 then c0r0
  else if i = 2 then c1r0
  else if i = 4 then c3r0
  else if i = 1 then c0r1
  else if i = 3 then c1r1
  else if i = 5 then c3r1
  else matrix i

/-- `InitOrientationMatrix`: the `switch` writes a fixed 2x3 matrix for seven
of the eight orientations; `ORIENT_NORMAL` falls into `default: break;`, which
leaves the array `matrix` exactly as it was before the call. -/
def InitOrientationMatrix (matrix : ℕ → ℚ) :
    video_orientation_t → ℕ → ℚ
  | .ROTATED_90 => MATRIX_SET 0 (-1) 1 1 0 0 matrix
  | .ROTATED_180 => MATRIX_SET (-1) 0 1 0 (-1) 1 matrix
  | .ROTATED_270 => MATRIX_SET 0 1 0 (-1) 0 1 matrix
  | .HFLIPPED => MATRIX_SET (-1) 0 1 0 1 0 matrix
  | .VFLIPPED => MATRIX_SET 1 0 0 0 (-1) 1 matrix
  | .TRANSPOSED => MATRIX_SET 0 (-1) 1 (-1) 0 1 matrix
  | .ANTI_TRANSPOSED => MATRIX_SET 0 1 0 1 0 0 matrix
  | .NORMAL => matrix

/-- The orientation matrix a freshly created sampler holds: `CreateSampler`
allocates the private state with `calloc` (all zeroes) and
`opengl_fragment_shader_init` then runs `InitOrientationMatrix` on it. -/
def sampler_mtx_orientation (o : video_orientation_t) : ℕ → ℚ :=
  InitOrientationMatrix calloc_zero_matrix o

/-- `MatrixMultiply(out, a, b)`: for every column `i < 3` and row `j < 2`,
`out[i*2+j] = a[0*2+j]*b[i*2+0] + a[1*2+j]*b[i*2+1] + a[2*2+j]`.  Note that
the term `a[2*2+j]` (the translation column of `a`) is added to every output
column.  Indices outside the 3x2 array are set to 0. -/
def MatrixMultiply (a b : ℕ → ℚ) : ℕ → ℚ := fun idx =>
  if idx < 6 then
    let i := idx / 2
    let j := idx % 2
    a (0 * 2 + j) * b (i * 2 + 0) + a (1 * 2 + j) * b (i * 2 + 1)
      + a (2 * 2 + j)
  else 0

/-- The mathematically correct affine composition that `MatrixMultiply`'s own
doc comment describes: the product of the 2x3 matrices expanded to 3x3 with
`[0 0 1]` as the implicit last row, so the translation column of `a`
contributes only to the translation column of the output. -/
def AffineComposeDoc (a b : ℕ → ℚ) : ℕ → ℚ := fun idx =>
  if idx < 6 then
    let i := idx / 2
    let j := idx % 2
    a (0 * 2 + j) * b (i * 2 + 0) + a (1 * 2 + j) * b (i * 2 + 1)
      + a (2 * 2 + j) * (if i = 2 then 1 else 0)
  else 0

/-- The matrix-related fields of `struct vlc_gl_sampler_priv`, plus the first
plane's texture dimensions (the only ones `vlc_gl_sampler_UpdatePicture`
reads, as `scale_w` / `scale_h`).  `last_source` keeps the four visible-region
fields of the previous source format. -/
structure SamplerState where
  mtx_orientation : ℕ → ℚ
  mtx_coords_map : ℕ → ℚ
  mtx_transform : ℕ → ℚ
  mtx_transform_defined : Bool
  mtx_all : ℕ → ℚ
  mtx_all_defined : Bool
  mtx_all_has_changed : Bool
  last_source_x_offset : ℕ
  last_source_y_offset : ℕ
  last_source_visible_width : ℕ
  last_source_visible_height : ℕ
  tex_width0 : ℚ
  tex_height0 : ℚ

/-- The state built by `CreateSampler` for the matrix fields: `calloc` zeroes
everything, then the orientation matrix is initialized from the format's
orientation, the flags are cleared, and `mtx_coords_map` receives
`MATRIX3x2_IDENTITY`.  `tex_w`/`tex_h` stand for the first plane's texture
dimensions derived from the interop (equal to the visible dimensions when the
context supports non-power-of-two textures). -/
def CreateSampler (fmt : video_format_t) (tex_w tex_h : ℚ) : SamplerState where
  mtx_orientation := InitOrientationMatrix calloc_zero_matrix fmt.orientation
  mtx_coords_map := MATRIX3x2_IDENTITY
  mtx_transform := calloc_zero_matrix
  mtx_transform_defined := false
  mtx_all := calloc_zero_matrix
  mtx_all_defined := false
  mtx_all_has_changed := false
  last_source_x_offset := 0
  last_source_y_offset := 0
  last_source_visible_width := 0
  last_source_visible_height := 0
  tex_width0 := tex_w
  tex_height0 := tex_h

/-- `vlc_gl_sampler_NewFromTexture2D` creates a sampler with no interop; no
texture sizes are set at creation (they stay `calloc`-zeroed until
`vlc_gl_sampler_UpdateTextures` copies them in). -/
def vlc_gl_sampler_NewFromTexture2D (fmt : video_format_t) : SamplerState :=
  CreateSampler fmt 0 0

/-- `UpdateMatrixAll`: compute `mtx_coords_map * mtx_orientation` with
`MatrixMultiply`, and left-multiply by `mtx_transform` when it is defined.
Returns the value written into `mtx_all`. -/
def UpdateMatrixAll (s : SamplerState) : ℕ → ℚ :=
  let out := MatrixMultiply s.mtx_coords_map s.mtx_orientation
  if s.mtx_transform_defined then MatrixMultiply s.mtx_transform out else out

/-- The coordinate-map matrix computed by `vlc_gl_sampler_UpdatePicture` when
the visible region changed: `left,top,right,bottom` are the region bounds
normalized by the first plane's texture size, and the matrix is
`[[right-left, 0, left], [0, bottom-top, top]]` stored column-major (indices
0, 3, 4, 5; the array was `memset` to zero first). -/
def coords_map_matrix (source : video_format_t) (scale_w scale_h : ℚ) :
    ℕ → ℚ :=
  let left := ((source.i_x_offset : ℚ) + 0) / scale_w
  let top := ((source.i_y_offset : ℚ) + 0) / scale_h
  let right := ((source.i_x_offset : ℚ) + source.i_visible_width) / scale_w
  let bottom := ((source.i_y_offset : ℚ) + source.i_visible_height) / scale_h
  fun i =>
    if i = 0 then right - left
    else if i = 3 then bottom - top
    else if i = 4 then left
    else if i = 5 then top
    else 0

/-- Whether the incoming source's visible region differs from the region
recorded in `last_source` (the four `!=` comparisons of
`vlc_gl_sampler_UpdatePicture`). -/
def source_region_changed (s : SamplerState) (source : video_format_t) : Prop :=
  source.i_x_offset ≠ s.last_source_x_offset
    ∨ source.i_y_offset ≠ s.last_source_y_offset
    ∨ source.i_visible_width ≠ s.last_source_visible_width
    ∨ source.i_visible_height ≠ s.last_source_visible_height

instance (s : SamplerState) (source : video_format_t) :
    Decidable (source_region_changed s source) := by
  unfold source_region_changed; infer_instance

/-- The transform-matrix block of `vlc_gl_sampler_UpdatePicture`: if the
interop supplies a matrix it is copied in, `mtx_transform_defined` is set and
`mtx_changed` becomes true; if none is supplied but one was previously
defined, it is dropped and `mtx_changed` becomes true; otherwise nothing
happens.  Returns the updated state and the new `mtx_changed` contribution. -/
def applyTransformStep (s : SamplerState) (tm : Option (ℕ → ℚ)) :
    SamplerState × Bool :=
  match tm with
  | some m => ({ s with mtx_transform := m, mtx_transform_defined := true }, true)
  | none =>
    if s.mtx_transform_defined then
      ({ s with mtx_transform_defined := false }, true)
    else (s, false)

/-- `vlc_gl_sampler_UpdatePicture`.  `source` is the picture's format, `tm` is
the optional per-frame transform matrix returned by
`interop->ops->get_transform_matrix`, and `ret` is the status returned by
`interop->ops->update_textures` (the texture upload itself is outside the
model).  Returns the new state and the function's return value. -/
def vlc_gl_sampler_UpdatePicture (s : SamplerState) (source : video_format_t)
    (tm : Option (ℕ → ℚ)) (ret : ℤ) : SamplerState × ℤ :=
  let recompute : Bool :=
    decide (s.mtx_all_defined = false ∨ source_region_changed s source)
  let s1 :=
    if recompute then
      { s with
        mtx_coords_map := coords_map_matrix source s.tex_width0 s.tex_height0
        last_source_x_offset := source.i_x_offset
        last_source_y_offset := source.i_y_offset
        last_source_visible_width := source.i_visible_width
        last_source_visible_height := source.i_visible_height }
    else s
  let st := applyTransformStep s1 tm
  let s2 := st.1
  let mtx_changed : Bool := recompute || st.2
  let s3 :=
    if s2.mtx_all_defined = false ∨ mtx_changed = true then
      { s2 with
          mtx_all := UpdateMatrixAll s2
          mtx_all_defined := true
          mtx_all_has_changed := true }
    else { s2 with mtx_all_has_changed := false }
  (s3, ret)

/-- `vlc_gl_sampler_UpdateTextures` (texture-driven mode): on the first call
(`mtx_all` not yet defined) the composite matrix becomes the 2x3 identity and
is marked changed; afterwards it is only marked unchanged.  The copies of the
caller-supplied texture handles and sizes are outside the model.  Always
returns `VLC_SUCCESS` (0). -/
def vlc_gl_sampler_UpdateTextures (s : SamplerState) : SamplerState × ℤ :=
  if s.mtx_all_defined = false then
    ({ s with
        mtx_all := MATRIX3x2_IDENTITY
        mtx_all_defined := true
        mtx_all_has_changed := true }, 0)
  else
    ({ s with mtx_all_has_changed := false }, 0)

/-- Iterated calls to `vlc_gl_sampler_UpdateTextures`. -/
def iterateUpdateTextures (s : SamplerState) : ℕ → SamplerState
  | 0 => s
  | n + 1 => (vlc_gl_sampler_UpdateTextures (iterateUpdateTextures s n)).1

/-- `vlc_gl_sampler_PicToTexCoords` on a single coordinate pair:
`tex = (m00*x + m10*y + m20, m01*x + m11*y + m21)` with `MTX(col,row) =
mtx_all[col*2+row]`. -/
def vlc_gl_sampler_PicToTexCoords (s : SamplerState) (p : ℚ × ℚ) : ℚ × ℚ :=
  let mtx := s.mtx_all
  (mtx (0 * 2 + 0) * p.1 + mtx (1 * 2 + 0) * p.2 + mtx (2 * 2 + 0),
   mtx (0 * 2 + 1) * p.1 + mtx (1 * 2 + 1) * p.2 + mtx (2 * 2 + 1))

/-- `vlc_gl_sampler_MustRecomputeCoords` returns `mtx_all_has_changed`. -/
def vlc_gl_sampler_MustRecomputeCoords (s : SamplerState) : Bool :=
  s.mtx_all_has_changed

/-- Modelled from the spec: the orientation-matrix table of section 4.3
(columns are the X, Y and constant coefficients; rows are the two output
coordinates), written over an all-zero array in the same column-major layout
as `InitOrientationMatrix`. -/
def spec_orientation_matrix : video_orientation_t → ℕ → ℚ
  | .NORMAL => MATRIX_SET 1 0 0 0 1 0 (fun _ => 0)
  | .ROTATED_90 => MATRIX_SET 0 (-1) 1 1 0 0 (fun _ => 0)
  | .ROTATED_180 => MATRIX_SET (-1) 0 1 0 (-1) 1 (fun _ => 0)
  | .ROTATED_270 => MATRIX_SET 0 1 0 (-1) 0 1 (fun _ => 0)
  | .HFLIPPED => MATRIX_SET (-1) 0 1 0 1 0 (fun _ => 0)
  | .VFLIPPED => MATRIX_SET 1 0 0 0 (-1) 1 (fun _ => 0)
  | .TRANSPOSED => MATRIX_SET 0 (-1) 1 (-1) 0 1 (fun _ => 0)
  | .ANTI_TRANSPOSED => MATRIX_SET 0 1 0 1 0 0 (fun _ => 0)

/-- The conversion matrix built by `opengl_fragment_shader_init` for a YUV
format: it forwards the format's chroma and color space to
`sampler_yuv_base_init`; the format's `color_range` is never read
(`sampler_yuv_base_init` hard-codes `COLOR_RANGE_LIMITED`). -/
def opengl_fragment_shader_conv_matrix (fmt : video_format_t)
    (desc : vlc_chroma_description_t) : ℕ → ℚ :=
  sampler_yuv_base_init fmt.i_chroma desc fmt.space

/-- A 16x16 picture format with identity orientation and a visible region
with zero offsets covering the full 16x16 texture (zero padding). -/
def C1_fmt : video_format_t :=
  { i_chroma := .OTHER, space := .UNDEF, color_range := .UNDEF,
    orientation := .NORMAL, i_x_offset := 0, i_y_offset := 0,
    i_visible_width := 16, i_visible_height := 16 }

/-- The sampler state after creating a frame-driven sampler for `C1_fmt`
(16x16 textures) and running one `vlc_gl_sampler_UpdatePicture` with a
zero-padding picture and no interop transform matrix. -/
def C1_state : SamplerState :=
  (vlc_gl_sampler_UpdatePicture (CreateSampler C1_fmt 16 16) C1_fmt none 0).1

/-- A 2x3 matrix with identity linear part and translation column `(5, 7)`,
column-major `[1, 0, 0, 1, 5, 7]`. -/
def C3_matrix_a : ℕ → ℚ := fun i =>
  if i = 0 then 1
  else if i = 3 then 1
  else if i = 4 then 5
  else if i = 5 then 7
  else 0

/-- A 16x16 source format (visible region `(0, 0, 16, 16)`). -/
def C4_fmt : video_format_t :=
  { i_chroma := .OTHER, space := .UNDEF, color_range := .UNDEF,
    orientation := .NORMAL, i_x_offset := 0, i_y_offset := 0,
    i_visible_width := 16, i_visible_height := 16 }

/-- The same source format with the x offset moved to 1. -/
def C4_fmt2 : video_format_t :=
  { C4_fmt with i_x_offset := 1 }

/-- State after one update of a fresh frame-driven sampler with source
`C4_fmt` and the interop supplying the identity transform matrix. -/
def C4_s1 : SamplerState :=
  (vlc_gl_sampler_UpdatePicture (CreateSampler C4_fmt 16 16) C4_fmt
    (some MATRIX3x2_IDENTITY) 0).1

/-- State after a second update with the identical source region and the
identical transform matrix. -/
def C4_s2 : SamplerState :=
  (vlc_gl_sampler_UpdatePicture C4_s1 C4_fmt (some MATRIX3x2_IDENTITY) 0).1

/-! ### Helper lemmas -/

theorem swapColumns12_low_scaled (r : ℚ) (m : ℕ → ℚ) (i : ℕ) (hi : i < 12) :
    swapColumns12 (fun j => if j < 4 * 3 then m j * r else m j) i
      = swapColumns12 m i * r := by
  unfold swapColumns12
  by_cases h1 : 4 ≤ i ∧ i ≤ 7
  · rw [if_pos h1, if_pos h1]
    dsimp only
    rw [if_pos (show i + 4 < 4 * 3 by omega)]
  · by_cases h2 : 8 ≤ i ∧ i ≤ 11
    · rw [if_neg h1, if_pos h2, if_neg h1, if_pos h2]
      dsimp only
      rw [if_pos (show i - 4 < 4 * 3 by omega)]
    · rw [if_neg h1, if_neg h2, if_neg h1, if_neg h2]
      dsimp only
      rw [if_pos (show i < 4 * 3 by omega)]

theorem swapColumns12_high (m : ℕ → ℚ) (i : ℕ) (hi : 12 ≤ i) :
    swapColumns12 m i = m i := by
  unfold swapColumns12
  rw [if_neg (show ¬ (4 ≤ i ∧ i ≤ 7) by omega),
    if_neg (show ¬ (8 ≤ i ∧ i ≤ 11) by omega)]

theorem conv_matrix_scaled_eq_scale (chroma : vlc_fourcc_t)
    (desc : vlc_chroma_description_t) (space : video_color_space_t)
    (h : desc.pixel_size = 2 ∧ chroma ≠ .P010 ∧ chroma ≠ .P016) :
    conv_matrix_scaled chroma desc space
      = fun i =>
          if i < 4 * 3 then
            init_conv_matrix space .LIMITED i
              * yuv_range_correction desc.pixel_bits
          else init_conv_matrix space .LIMITED i := by
  unfold conv_matrix_scaled
  rw [if_pos h]

theorem conv_matrix_scaled_eq_noscale (chroma : vlc_fourcc_t)
    (desc : vlc_chroma_description_t) (space : video_color_space_t)
    (h : ¬ (desc.pixel_size = 2 ∧ chroma ≠ .P010 ∧ chroma ≠ .P016)) :
    conv_matrix_scaled chroma desc space = init_conv_matrix space .LIMITED := by
  unfold conv_matrix_scaled
  rw [if_neg h]

theorem sampler_yuv_swap (chroma : vlc_fourcc_t)
    (desc : vlc_chroma_description_t) (space : video_color_space_t)
    (h : swap_uv chroma = true) :
    sampler_yuv_base_init chroma desc space
      = swapColumns12 (conv_matrix_scaled chroma desc space) := by
  unfold sampler_yuv_base_init
  rw [if_pos h]

theorem sampler_yuv_noswap (chroma : vlc_fourcc_t)
    (desc : vlc_chroma_description_t) (space : video_color_space_t)
    (h : swap_uv chroma = false) :
    sampler_yuv_base_init chroma desc space
      = conv_matrix_scaled chroma desc space := by
  unfold sampler_yuv_base_init
  rw [if_neg (show ¬ swap_uv chroma = true from by simp [h])]

/-! ### Claims about the color matrix pipeline -/

set_option maxHeartbeats 1000000 in
/-- C6: for every supported YUV standard, the conversion matrix built with the
limited-range setting maps the 8-bit limited-range neutral gray
`(16/255, 128/255, 128/255, 1)` to RGB `(0, 0, 0)` (exactly, in rational
arithmetic), and the matrix built with the full-range setting maps the
full-range neutral input `(0, 128/255, 128/255, 1)` to `(0, 0, 0)`. -/
theorem claim_C6 : ∀ cs : video_color_space_t,
    (conv_apply (init_conv_matrix cs .LIMITED) (16/255) (128/255) (128/255) 0 = 0
      ∧ conv_apply (init_conv_matrix cs .LIMITED) (16/255) (128/255) (128/255) 1 = 0
      ∧ conv_apply (init_conv_matrix cs .LIMITED) (16/255) (128/255) (128/255) 2 = 0)
    ∧ (conv_apply (init_conv_matrix cs .FULL) 0 (128/255) (128/255) 0 = 0
      ∧ conv_apply (init_conv_matrix cs .FULL) 0 (128/255) (128/255) 1 = 0
      ∧ conv_apply (init_conv_matrix cs .FULL) 0 (128/255) (128/255) 2 = 0) := by
  intro cs
  cases cs <;>
    refine ⟨⟨?_, ?_, ?_⟩, ?_, ?_, ?_⟩ <;>
      norm_num [conv_apply, init_conv_matrix, MATRIX_BT601, MATRIX_BT709,
        MATRIX_BT2020, MATRIX_YUV_TO_RGB, MATRIX_COLOR_RANGE_LIMITED,
        MATRIX_COLOR_RANGE_FULL]

/-- C7: for a 2-byte-sample chroma other than P010/P016, every entry of flat
indices 0..11 (the three scaled rows in the code's own description) of the
final conversion matrix is the corresponding entry of the unscaled pipeline
(pixel size 1) times `yuv_range_correction = (2^16-1)/(2^bits-1)`, which
equals `65535/1023` for 10-bit samples; the remaining entries are unchanged,
and P010/P016 receive no scaling at all. -/
theorem claim_C7 :
    ∀ (chroma : vlc_fourcc_t) (space : video_color_space_t) (bits : ℕ),
    chroma ≠ .P010 → chroma ≠ .P016 →
    (∀ i, i < 12 →
        sampler_yuv_base_init chroma ⟨2, bits⟩ space i
          = sampler_yuv_base_init chroma ⟨1, bits⟩ space i
              * yuv_range_correction bits)
    ∧ (∀ i, 12 ≤ i →
        sampler_yuv_base_init chroma ⟨2, bits⟩ space i
          = sampler_yuv_base_init chroma ⟨1, bits⟩ space i)
    ∧ yuv_range_correction 10 = 65535 / 1023
    ∧ (∀ (space2 : video_color_space_t) (bits2 : ℕ),
        sampler_yuv_base_init .P010 ⟨2, bits2⟩ space2
          = sampler_yuv_base_init .P010 ⟨1, bits2⟩ space2)
    ∧ (∀ (space2 : video_color_space_t) (bits2 : ℕ),
        sampler_yuv_base_init .P016 ⟨2, bits2⟩ space2
          = sampler_yuv_base_init .P016 ⟨1, bits2⟩ space2) := by
  intro chroma space bits h1 h2
  have hs2 := conv_matrix_scaled_eq_scale chroma ⟨2, bits⟩ space ⟨rfl, h1, h2⟩
  have hs1 := conv_matrix_scaled_eq_noscale chroma ⟨1, bits⟩ space (by simp)
  refine ⟨?_, ?_, ?_, ?_, ?_⟩
  · intro i hi
    by_cases hsw : swap_uv chroma = true
    · rw [sampler_yuv_swap _ _ _ hsw, sampler_yuv_swap _ _ _ hsw, hs2, hs1]
      exact swapColumns12_low_scaled _ _ i hi
    · have hsw' : swap_uv chroma = false := by
        revert hsw; cases swap_uv chroma <;> simp
      rw [sampler_yuv_noswap _ _ _ hsw', sampler_yuv_noswap _ _ _ hsw',
        hs2, hs1]
      dsimp only
      rw [if_pos (show i < 4 * 3 by omega)]
  · intro i hi
    by_cases hsw : swap_uv chroma = true
    · rw [sampler_yuv_swap _ _ _ hsw, sampler_yuv_swap _ _ _ hsw, hs2, hs1,
        swapColumns12_high _ i hi, swapColumns12_high _ i hi]
      dsimp only
      rw [if_neg (show ¬ i < 4 * 3 by omega)]
    · have hsw' : swap_uv chroma = false := by
        revert hsw; cases swap_uv chroma <;> simp
      rw [sampler_yuv_noswap _ _ _ hsw', sampler_yuv_noswap _ _ _ hsw',
        hs2, hs1]
      dsimp only
      rw [if_neg (show ¬ i < 4 * 3 by omega)]
  · norm_num [yuv_range_correction]
  · intro space2 bits2
    rw [sampler_yuv_noswap .P010 ⟨2, bits2⟩ space2 rfl,
      sampler_yuv_noswap .P010 ⟨1, bits2⟩ space2 rfl,
      conv_matrix_scaled_eq_noscale .P010 ⟨2, bits2⟩ space2 (by simp),
      conv_matrix_scaled_eq_noscale .P010 ⟨1, bits2⟩ space2 (by simp)]
  · intro space2 bits2
    rw [sampler_yuv_noswap .P016 ⟨2, bits2⟩ space2 rfl,
      sampler_yuv_noswap .P016 ⟨1, bits2⟩ space2 rfl,
      conv_matrix_scaled_eq_noscale .P016 ⟨2, bits2⟩ space2 (by simp),
      conv_matrix_scaled_eq_noscale .P016 ⟨1, bits2⟩ space2 (by simp)]

/-- Witness for C7 at a concrete input: NV12 (2-byte, 10-bit samples) gets its
entry 0 scaled by the bit-depth correction factor. -/
theorem claim_C7_witness :
    vlc_fourcc_t.NV12 ≠ .P010 ∧ vlc_fourcc_t.NV12 ≠ .P016 ∧ (0 : ℕ) < 12
    ∧ sampler_yuv_base_init .NV12 ⟨2, 10⟩ .BT601 0
        = sampler_yuv_base_init .NV12 ⟨1, 10⟩ .BT601 0
            * yuv_range_correction 10 :=
  ⟨by decide, by decide, by decide,
    (claim_C7 .NV12 .BT601 10 (by decide) (by decide)).1 0 (by decide)⟩

/-- C8: swapping columns 1 and 2 of the column-major 4x4 matrix is an
involution, and the final pipeline stage applies exactly that swap to the
scaled conversion matrix precisely for the chromas whose `swap_uv` flag is
set, i.e. exactly YV12, YV9 and NV21: for them, each row entry of column 1
equals the scaled matrix's column-2 entry of the same row and vice versa,
with columns 0 and 3 untouched (rows are not exchanged); for every other
chroma the matrix is returned unswapped. -/
theorem claim_C8 :
    (∀ m : ℕ → ℚ, swapColumns12 (swapColumns12 m) = m)
    ∧ (∀ (chroma : vlc_fourcc_t) (desc : vlc_chroma_description_t)
          (space : video_color_space_t),
        (swap_uv chroma = true →
          ∀ row, row < 4 →
            sampler_yuv_base_init chroma desc space (4 + row)
              = conv_matrix_scaled chroma desc space (8 + row)
            ∧ sampler_yuv_base_init chroma desc space (8 + row)
              = conv_matrix_scaled chroma desc space (4 + row)
            ∧ sampler_yuv_base_init chroma desc space row
              = conv_matrix_scaled chroma desc space row
            ∧ sampler_yuv_base_init chroma desc space (12 + row)
              = conv_matrix_scaled chroma desc space (12 + row))
        ∧ (swap_uv chroma = false →
            sampler_yuv_base_init chroma desc space
              = conv_matrix_scaled chroma desc space))
    ∧ (∀ chroma : vlc_fourcc_t,
        swap_uv chroma = true
          ↔ (chroma = .YV12 ∨ chroma = .YV9 ∨ chroma = .NV21)) := by
  refine ⟨?_, ?_, ?_⟩
  · intro m
    funext i
    unfold swapColumns12
    by_cases h1 : 4 ≤ i ∧ i ≤ 7
    · rw [if_pos h1, if_neg (show ¬ (4 ≤ i + 4 ∧ i + 4 ≤ 7) by omega),
        if_pos (show 8 ≤ i + 4 ∧ i + 4 ≤ 11 by omega)]
      congr 1
    · by_cases h2 : 8 ≤ i ∧ i ≤ 11
      · rw [if_neg h1, if_pos h2, if_pos (show 4 ≤ i - 4 ∧ i - 4 ≤ 7 by omega)]
        congr 1
        omega
      · rw [if_neg h1, if_neg h2, if_neg h1, if_neg h2]
  · intro chroma desc space
    constructor
    · intro hsw row hrow
      rw [sampler_yuv_swap _ _ _ hsw]
      unfold swapColumns12
      refine ⟨?_, ?_, ?_, ?_⟩
      · rw [if_pos (show 4 ≤ 4 + row ∧ 4 + row ≤ 7 by omega)]
        congr 1
        omega
      · rw [if_neg (show ¬ (4 ≤ 8 + row ∧ 8 + row ≤ 7) by omega),
          if_pos (show 8 ≤ 8 + row ∧ 8 + row ≤ 11 by omega)]
        congr 1
        omega
      · rw [if_neg (show ¬ (4 ≤ row ∧ row ≤ 7) by omega),
          if_neg (show ¬ (8 ≤ row ∧ row ≤ 11) by omega)]
      · rw [if_neg (show ¬ (4 ≤ 12 + row ∧ 12 + row ≤ 7) by omega),
          if_neg (show ¬ (8 ≤ 12 + row ∧ 12 + row ≤ 11) by omega)]
    · intro hsw
      exact sampler_yuv_noswap _ _ _ hsw
  · intro chroma
    cases chroma <;> simp [swap_uv]

/-- Witness for C8 at a concrete input: YV12 stores V before U, and its final
matrix's column-1 row-0 entry is the scaled matrix's column-2 row-0 entry. -/
theorem claim_C8_witness :
    swap_uv .YV12 = true ∧ (0 : ℕ) < 4
    ∧ sampler_yuv_base_init .YV12 ⟨1, 8⟩ .BT601 (4 + 0)
        = conv_matrix_scaled .YV12 ⟨1, 8⟩ .BT601 (8 + 0) :=
  ⟨rfl, by decide,
    ((claim_C8.2.1 .YV12 ⟨1, 8⟩ .BT601).1 rfl 0 (by decide)).1⟩

/-- C9: the conversion matrix built at sampler construction never depends on
the source format's color-range tag (the range selector passed to
`init_conv_matrix` is the constant `COLOR_RANGE_LIMITED`); in particular a
full-range-tagged plain format still receives the limited-range matrix, which
differs from the full-range one. -/
theorem claim_C9 :
    (∀ (fmt : video_format_t) (desc : vlc_chroma_description_t)
        (r : video_color_range_t),
      opengl_fragment_shader_conv_matrix { fmt with color_range := r } desc
        = opengl_fragment_shader_conv_matrix fmt desc)
    ∧ (∀ space : video_color_space_t,
        opengl_fragment_shader_conv_matrix
          { i_chroma := .OTHER, space := space, color_range := .FULL,
            orientation := .NORMAL, i_x_offset := 0, i_y_offset := 0,
            i_visible_width := 0, i_visible_height := 0 }
          { pixel_size := 1, pixel_bits := 8 }
          = init_conv_matrix space .LIMITED)
    ∧ init_conv_matrix .BT709 .LIMITED 0 ≠ init_conv_matrix .BT709 .FULL 0 := by
  refine ⟨fun fmt desc r => rfl, fun space => ?_, ?_⟩
  · unfold opengl_fragment_shader_conv_matrix
    dsimp only
    rw [sampler_yuv_noswap .OTHER ⟨1, 8⟩ space rfl,
      conv_matrix_scaled_eq_noscale .OTHER ⟨1, 8⟩ space (by simp)]
  · norm_num [init_conv_matrix, MATRIX_BT709, MATRIX_YUV_TO_RGB,
      MATRIX_COLOR_RANGE_FULL, MATRIX_COLOR_RANGE_LIMITED]

/-- C2 (code_bug evaluation): for the seven non-identity orientations the
orientation matrix built at sampler construction equals the corresponding row
of the spec table exactly; but for the identity orientation (`ORIENT_NORMAL`)
the `switch` falls into `default: break;` and the `calloc`-zeroed matrix is
left all-zero instead of the table's `[[1,0,0],[0,1,0]]`, so applying it to
the corner `(1,1)` yields `(0,0)` instead of `(1,1)`. -/
theorem claim_C2 :
    (∀ o : video_orientation_t, o ≠ .NORMAL →
      ∀ i, i < 6 → sampler_mtx_orientation o i = spec_orientation_matrix o i)
    ∧ (∀ i, i < 6 → sampler_mtx_orientation .NORMAL i = 0)
    ∧ sampler_mtx_orientation .NORMAL 0 ≠ spec_orientation_matrix .NORMAL 0
    ∧ (sampler_mtx_orientation .NORMAL (0 * 2 + 0) * 1
          + sampler_mtx_orientation .NORMAL (1 * 2 + 0) * 1
          + sampler_mtx_orientation .NORMAL (2 * 2 + 0),
        sampler_mtx_orientation .NORMAL (0 * 2 + 1) * 1
          + sampler_mtx_orientation .NORMAL (1 * 2 + 1) * 1
          + sampler_mtx_orientation .NORMAL (2 * 2 + 1)) = ((0 : ℚ), (0 : ℚ))
    ∧ (spec_orientation_matrix .NORMAL (0 * 2 + 0) * 1
          + spec_orientation_matrix .NORMAL (1 * 2 + 0) * 1
          + spec_orientation_matrix .NORMAL (2 * 2 + 0),
        spec_orientation_matrix .NORMAL (0 * 2 + 1) * 1
          + spec_orientation_matrix .NORMAL (1 * 2 + 1) * 1
          + spec_orientation_matrix .NORMAL (2 * 2 + 1)) = ((1 : ℚ), (1 : ℚ)) := by
  refine ⟨?_, ?_, ?_, ?_, ?_⟩
  · intro o ho i hi
    cases o
    · exact absurd rfl ho
    all_goals
      interval_cases i <;> rfl
  · intro i hi
    interval_cases i <;> rfl
  · norm_num [sampler_mtx_orientation, spec_orientation_matrix,
      InitOrientationMatrix, MATRIX_SET, calloc_zero_matrix]
  · norm_num [sampler_mtx_orientation, InitOrientationMatrix,
      calloc_zero_matrix]
  · norm_num [spec_orientation_matrix, MATRIX_SET]

/-- Witness for C2 at a concrete input: the 90-degree rotation matrix built by
the code matches the spec table entry at index 0. -/
theorem claim_C2_witness :
    video_orientation_t.ROTATED_90 ≠ .NORMAL ∧ (0 : ℕ) < 6
    ∧ sampler_mtx_orientation .ROTATED_90 0
        = spec_orientation_matrix .ROTATED_90 0 :=
  ⟨by decide, by decide, claim_C2.1 .ROTATED_90 (by decide) 0 (by decide)⟩

/-- C3 (code_bug evaluation): `MatrixMultiply` adds `a`'s translation column
to every output column, so composing `a = [[1,0,5],[0,1,7]]` with the
identity yields `6` at entry 0 where the affine product described by the
function's own doc comment (implicit `[0 0 1]` last row) yields `1`; the two
agree on the translation column (column 2) only. -/
theorem claim_C3 :
    MatrixMultiply C3_matrix_a MATRIX3x2_IDENTITY 0 = 6
    ∧ AffineComposeDoc C3_matrix_a MATRIX3x2_IDENTITY 0 = 1
    ∧ MatrixMultiply C3_matrix_a MATRIX3x2_IDENTITY 0
        ≠ AffineComposeDoc C3_matrix_a MATRIX3x2_IDENTITY 0
    ∧ (∀ (a b : ℕ → ℚ) (j : ℕ), j < 2 →
        MatrixMultiply a b (2 * 2 + j) = AffineComposeDoc a b (2 * 2 + j)) := by
  refine ⟨?_, ?_, ?_, ?_⟩
  · norm_num [MatrixMultiply, C3_matrix_a, MATRIX3x2_IDENTITY]
  · norm_num [AffineComposeDoc, C3_matrix_a, MATRIX3x2_IDENTITY]
  · norm_num [MatrixMultiply, AffineComposeDoc, C3_matrix_a, MATRIX3x2_IDENTITY]
  · intro a b j hj
    interval_cases j <;> norm_num [MatrixMultiply, AffineComposeDoc]

/-- Witness for C3 at a concrete input: on the translation column (index
`2*2+0`), `MatrixMultiply` agrees with the documented affine product. -/
theorem claim_C3_witness :
    (0 : ℕ) < 2
    ∧ MatrixMultiply C3_matrix_a MATRIX3x2_IDENTITY (2 * 2 + 0)
        = AffineComposeDoc C3_matrix_a MATRIX3x2_IDENTITY (2 * 2 + 0) :=
  ⟨by decide, claim_C3.2.2.2 C3_matrix_a MATRIX3x2_IDENTITY 0 (by decide)⟩

/-- C1 (code_bug evaluation): after creating a frame-driven sampler with
identity orientation over a 16x16 texture and updating it with a picture
whose visible region is `(0,0,16,16)` (zero padding, no transform), the
composite matrix maps the picture corner `(0,0)` to `(0,0)` as the claim
states, but maps `(1,1)` to `(0,0)` instead of `(1,1)`: the orientation
matrix was left all-zero for `ORIENT_NORMAL`, collapsing the linear part. -/
theorem claim_C1 :
    vlc_gl_sampler_PicToTexCoords C1_state (0, 0) = (0, 0)
    ∧ vlc_gl_sampler_PicToTexCoords C1_state (1, 1) = (0, 0)
    ∧ vlc_gl_sampler_PicToTexCoords C1_state (1, 1) ≠ (1, 1) := by
  refine ⟨?_, ?_, ?_⟩ <;>
    norm_num [C1_state, C1_fmt, vlc_gl_sampler_PicToTexCoords,
      vlc_gl_sampler_UpdatePicture, CreateSampler, applyTransformStep,
      UpdateMatrixAll, MatrixMultiply, coords_map_matrix,
      InitOrientationMatrix, calloc_zero_matrix, MATRIX3x2_IDENTITY,
      source_region_changed, Prod.ext_iff]

/-! ### Helper lemmas about the per-frame update -/

theorem updateTextures_of_defined (s : SamplerState)
    (h : s.mtx_all_defined = true) :
    (vlc_gl_sampler_UpdateTextures s).1 = { s with mtx_all_has_changed := false } := by
  unfold vlc_gl_sampler_UpdateTextures
  rw [if_neg (show ¬ s.mtx_all_defined = false from by simp [h])]

theorem iterateUpdateTextures_invariant (s : SamplerState)
    (h1 : s.mtx_all_defined = true) (h2 : s.mtx_all = MATRIX3x2_IDENTITY) :
    ∀ n, (iterateUpdateTextures s n).mtx_all_defined = true
      ∧ (iterateUpdateTextures s n).mtx_all = MATRIX3x2_IDENTITY := by
  intro n
  induction n with
  | zero => exact ⟨h1, h2⟩
  | succ n ih =>
    show ((vlc_gl_sampler_UpdateTextures (iterateUpdateTextures s n)).1).mtx_all_defined = true
      ∧ ((vlc_gl_sampler_UpdateTextures (iterateUpdateTextures s n)).1).mtx_all = MATRIX3x2_IDENTITY
    rw [updateTextures_of_defined _ ih.1]
    exact ⟨ih.1, ih.2⟩

theorem UpdatePicture_ret (s : SamplerState) (source : video_format_t)
    (tm : Option (ℕ → ℚ)) (ret : ℤ) :
    (vlc_gl_sampler_UpdatePicture s source tm ret).2 = ret := rfl

theorem UpdatePicture_state_ret_independent (s : SamplerState)
    (source : video_format_t) (tm : Option (ℕ → ℚ)) (ret : ℤ) :
    (vlc_gl_sampler_UpdatePicture s source tm ret).1
      = (vlc_gl_sampler_UpdatePicture s source tm 0).1 := rfl

theorem applyTransformStep_all_defined (s : SamplerState)
    (tm : Option (ℕ → ℚ)) :
    ((applyTransformStep s tm).1).mtx_all_defined = s.mtx_all_defined := by
  cases tm with
  | none =>
    unfold applyTransformStep
    by_cases h : s.mtx_transform_defined = true
    · rw [if_pos h]
    · rw [if_neg h]
  | some m => rfl

theorem applyTransformStep_transform_defined (s : SamplerState)
    (tm : Option (ℕ → ℚ)) :
    ((applyTransformStep s tm).1).mtx_transform_defined = tm.isSome := by
  cases tm with
  | none =>
    unfold applyTransformStep
    by_cases h : s.mtx_transform_defined = true
    · rw [if_pos h]
      exact rfl
    · rw [if_neg h]
      simpa using h
  | some m => rfl

theorem applyTransformStep_changed (s : SamplerState) (tm : Option (ℕ → ℚ)) :
    (applyTransformStep s tm).2 = true
      ↔ (tm ≠ none ∨ (tm = none ∧ s.mtx_transform_defined = true)) := by
  cases tm with
  | none =>
    unfold applyTransformStep
    by_cases h : s.mtx_transform_defined = true
    · rw [if_pos h]
      simp [h]
    · rw [if_neg h]
      simpa using h
  | some m => simp [applyTransformStep]

theorem applyTransformStep_last_source (s : SamplerState)
    (tm : Option (ℕ → ℚ)) :
    ((applyTransformStep s tm).1).last_source_x_offset = s.last_source_x_offset
    ∧ ((applyTransformStep s tm).1).last_source_y_offset = s.last_source_y_offset
    ∧ ((applyTransformStep s tm).1).last_source_visible_width
        = s.last_source_visible_width
    ∧ ((applyTransformStep s tm).1).last_source_visible_height
        = s.last_source_visible_height := by
  cases tm with
  | none =>
    unfold applyTransformStep
    by_cases h : s.mtx_transform_defined = true
    · rw [if_pos h]
      exact ⟨rfl, rfl, rfl, rfl⟩
    · rw [if_neg h]
      exact ⟨rfl, rfl, rfl, rfl⟩
  | some m => exact ⟨rfl, rfl, rfl, rfl⟩

theorem UpdatePicture_flag (s : SamplerState) (source : video_format_t)
    (tm : Option (ℕ → ℚ)) (ret : ℤ) :
    ((vlc_gl_sampler_UpdatePicture s source tm ret).1).mtx_all_has_changed = true
      ↔ (s.mtx_all_defined = false ∨ source_region_changed s source
          ∨ tm ≠ none ∨ (tm = none ∧ s.mtx_transform_defined = true)) := by
  rcases tm with _ | m <;>
    cases htd : s.mtx_transform_defined <;>
      cases hd : s.mtx_all_defined <;>
        by_cases hsrc : source_region_changed s source <;>
          simp [vlc_gl_sampler_UpdatePicture, applyTransformStep, htd, hd, hsrc]

theorem UpdatePicture_defined (s : SamplerState) (source : video_format_t)
    (tm : Option (ℕ → ℚ)) (ret : ℤ) :
    ((vlc_gl_sampler_UpdatePicture s source tm ret).1).mtx_all_defined = true := by
  rcases tm with _ | m <;>
    cases htd : s.mtx_transform_defined <;>
      cases hd : s.mtx_all_defined <;>
        by_cases hsrc : source_region_changed s source <;>
          simp [vlc_gl_sampler_UpdatePicture, applyTransformStep, htd, hd, hsrc]

theorem UpdatePicture_transform_defined (s : SamplerState)
    (source : video_format_t) (tm : Option (ℕ → ℚ)) (ret : ℤ) :
    ((vlc_gl_sampler_UpdatePicture s source tm ret).1).mtx_transform_defined
      = tm.isSome := by
  rcases tm with _ | m <;>
    cases htd : s.mtx_transform_defined <;>
      cases hd : s.mtx_all_defined <;>
        by_cases hsrc : source_region_changed s source <;>
          simp [vlc_gl_sampler_UpdatePicture, applyTransformStep, htd, hd, hsrc]

theorem UpdatePicture_last_source (s : SamplerState) (source : video_format_t)
    (tm : Option (ℕ → ℚ)) (ret : ℤ) :
    ((vlc_gl_sampler_UpdatePicture s source tm ret).1).last_source_x_offset
        = source.i_x_offset
    ∧ ((vlc_gl_sampler_UpdatePicture s source tm ret).1).last_source_y_offset
        = source.i_y_offset
    ∧ ((vlc_gl_sampler_UpdatePicture s source tm ret).1).last_source_visible_width
        = source.i_visible_width
    ∧ ((vlc_gl_sampler_UpdatePicture s source tm ret).1).last_source_visible_height
        = source.i_visible_height := by
  rcases tm with _ | m <;>
    cases htd : s.mtx_transform_defined <;>
      cases hd : s.mtx_all_defined <;>
        by_cases hsrc : source_region_changed s source <;>
          simp [vlc_gl_sampler_UpdatePicture, applyTransformStep, htd, hd, hsrc] <;>
          · unfold source_region_changed at hsrc
            push_neg at hsrc
            simp [hsrc.1, hsrc.2.1, hsrc.2.2.1, hsrc.2.2.2]

theorem UpdatePicture_twice_unchanged (s : SamplerState)
    (source : video_format_t) (r1 r2 : ℤ) :
    vlc_gl_sampler_MustRecomputeCoords
      ((vlc_gl_sampler_UpdatePicture
        ((vlc_gl_sampler_UpdatePicture s source none r1).1)
        source none r2).1) = false := by
  have hdef := UpdatePicture_defined s source none r1
  have hls := UpdatePicture_last_source s source none r1
  have htd := UpdatePicture_transform_defined s source none r1
  have hiff := UpdatePicture_flag
    ((vlc_gl_sampler_UpdatePicture s source none r1).1) source none r2
  have hnot : ¬ (((vlc_gl_sampler_UpdatePicture s source none r1).1).mtx_all_defined = false
      ∨ source_region_changed ((vlc_gl_sampler_UpdatePicture s source none r1).1) source
      ∨ (none : Option (ℕ → ℚ)) ≠ none
      ∨ ((none : Option (ℕ → ℚ)) = none
          ∧ ((vlc_gl_sampler_UpdatePicture s source none r1).1).mtx_transform_defined
              = true)) := by
    rintro (h | h | h | h)
    · simp [hdef] at h
    · unfold source_region_changed at h
      rcases h with h | h | h | h
      · exact h hls.1.symm
      · exact h hls.2.1.symm
      · exact h hls.2.2.1.symm
      · exact h hls.2.2.2.symm
    · exact h rfl
    · simp [htd] at h
  have hne := mt hiff.mp hnot
  simpa [vlc_gl_sampler_MustRecomputeCoords] using hne

/-! ### Claims about the per-frame update state machine -/

/-- C4 (amended): after a `vlc_gl_sampler_UpdatePicture`,
`vlc_gl_sampler_MustRecomputeCoords` returns true exactly when the composite
was never defined, the source's visible region differs from the recorded one
(so the coordinate-map matrix is recomputed), a transform matrix is supplied
by the interop this update (the code marks change whenever one is present,
without comparing it to the previous one), or a previously supplied transform
is now absent.  In particular two consecutive updates with identical visible
region and no transform matrix leave the flag false on the second call, and
changing the visible region's x offset sets it true exactly once. -/
theorem claim_C4 :
    (∀ (s : SamplerState) (source : video_format_t) (tm : Option (ℕ → ℚ))
        (ret : ℤ),
      vlc_gl_sampler_MustRecomputeCoords
          ((vlc_gl_sampler_UpdatePicture s source tm ret).1) = true
        ↔ (s.mtx_all_defined = false ∨ source_region_changed s source
            ∨ tm ≠ none ∨ (tm = none ∧ s.mtx_transform_defined = true)))
    ∧ (∀ (s : SamplerState) (source : video_format_t) (r1 r2 : ℤ),
        vlc_gl_sampler_MustRecomputeCoords
          ((vlc_gl_sampler_UpdatePicture
            ((vlc_gl_sampler_UpdatePicture s source none r1).1)
            source none r2).1) = false)
    ∧ (∀ (s : SamplerState) (source source2 : video_format_t) (r1 r2 r3 : ℤ),
        source2.i_x_offset ≠ source.i_x_offset →
        vlc_gl_sampler_MustRecomputeCoords
            ((vlc_gl_sampler_UpdatePicture
              ((vlc_gl_sampler_UpdatePicture s source none r1).1)
              source2 none r2).1) = true
        ∧ vlc_gl_sampler_MustRecomputeCoords
            ((vlc_gl_sampler_UpdatePicture
              ((vlc_gl_sampler_UpdatePicture
                ((vlc_gl_sampler_UpdatePicture s source none r1).1)
                source2 none r2).1)
              source2 none r3).1) = false) := by
  refine ⟨?_, ?_, ?_⟩
  · intro s source tm ret
    exact UpdatePicture_flag s source tm ret
  · intro s source r1 r2
    exact UpdatePicture_twice_unchanged s source r1 r2
  · intro s source source2 r1 r2 r3 hx
    constructor
    · have hls := UpdatePicture_last_source s source none r1
      exact (UpdatePicture_flag
          ((vlc_gl_sampler_UpdatePicture s source none r1).1)
          source2 none r2).mpr
        (Or.inr (Or.inl (Or.inl (by rw [hls.1]; exact hx))))
    · exact UpdatePicture_twice_unchanged
        ((vlc_gl_sampler_UpdatePicture s source none r1).1) source2 r2 r3

/-- Counterexample to C4 as stated: two consecutive updates with the
identical visible region and the identical interop transform matrix leave
the coordinate-map matrix and the transform matrix unchanged and the
composite already defined, yet the second update still reports
`MustRecomputeCoords = true` (the code marks change whenever a transform
matrix is present). -/
theorem claim_C4_counterexample :
    vlc_gl_sampler_MustRecomputeCoords C4_s2 = true
    ∧ C4_s2.mtx_coords_map = C4_s1.mtx_coords_map
    ∧ C4_s2.mtx_transform = C4_s1.mtx_transform
    ∧ C4_s1.mtx_all_defined = true := by
  refine ⟨by decide, rfl, rfl, by decide⟩

/-- Witness for C4 at a concrete input: moving the x offset from 0 to 1 on
the second update sets the flag. -/
theorem claim_C4_witness :
    C4_fmt2.i_x_offset ≠ C4_fmt.i_x_offset
    ∧ vlc_gl_sampler_MustRecomputeCoords
        ((vlc_gl_sampler_UpdatePicture
          ((vlc_gl_sampler_UpdatePicture (CreateSampler C4_fmt 16 16)
            C4_fmt none 0).1)
          C4_fmt2 none 0).1) = true :=
  ⟨by decide,
    (claim_C4.2.2 (CreateSampler C4_fmt 16 16) C4_fmt C4_fmt2 0 0 0
      (by decide)).1⟩

/-- C5: on a texture-driven sampler (no interop), the first
`vlc_gl_sampler_UpdateTextures` sets the composite matrix to the 2x3 identity
and makes `MustRecomputeCoords` return true; every later call leaves the
composite equal to the identity and makes `MustRecomputeCoords` return
false. -/
theorem claim_C5 : ∀ fmt : video_format_t,
    (vlc_gl_sampler_MustRecomputeCoords
        ((vlc_gl_sampler_UpdateTextures
          (vlc_gl_sampler_NewFromTexture2D fmt)).1) = true
      ∧ ((vlc_gl_sampler_UpdateTextures
          (vlc_gl_sampler_NewFromTexture2D fmt)).1).mtx_all
          = MATRIX3x2_IDENTITY)
    ∧ (∀ n : ℕ,
        vlc_gl_sampler_MustRecomputeCoords
            (iterateUpdateTextures
              ((vlc_gl_sampler_UpdateTextures
                (vlc_gl_sampler_NewFromTexture2D fmt)).1) (n + 1)) = false
        ∧ (iterateUpdateTextures
              ((vlc_gl_sampler_UpdateTextures
                (vlc_gl_sampler_NewFromTexture2D fmt)).1) (n + 1)).mtx_all
            = MATRIX3x2_IDENTITY) := by
  intro fmt
  have h0 : (vlc_gl_sampler_UpdateTextures
      (vlc_gl_sampler_NewFromTexture2D fmt)).1
      = { vlc_gl_sampler_NewFromTexture2D fmt with
            mtx_all := MATRIX3x2_IDENTITY
            mtx_all_defined := true
            mtx_all_has_changed := true } := by
    unfold vlc_gl_sampler_UpdateTextures
    rw [if_pos (show (vlc_gl_sampler_NewFromTexture2D fmt).mtx_all_defined
        = false from rfl)]
  constructor
  · rw [h0]
    exact ⟨rfl, rfl⟩
  · intro n
    have hinv := iterateUpdateTextures_invariant
      ((vlc_gl_sampler_UpdateTextures (vlc_gl_sampler_NewFromTexture2D fmt)).1)
      (by rw [h0]) (by rw [h0]) n
    show vlc_gl_sampler_MustRecomputeCoords
        ((vlc_gl_sampler_UpdateTextures (iterateUpdateTextures _ n)).1) = false
      ∧ ((vlc_gl_sampler_UpdateTextures (iterateUpdateTextures _ n)).1).mtx_all
          = MATRIX3x2_IDENTITY
    rw [updateTextures_of_defined _ hinv.1]
    exact ⟨rfl, hinv.2⟩

/-- C10: whatever status the interop's `update_textures` returns, a
`vlc_gl_sampler_UpdatePicture` returns exactly that status, and the resulting
matrix state is identical to the state produced by a successful update
(status 0): in particular the recorded source region and the
transform-defined flag are refreshed even on failure; the per-frame update is
not atomic on error. -/
theorem claim_C10 :
    ∀ (s : SamplerState) (source : video_format_t) (tm : Option (ℕ → ℚ))
      (ret : ℤ),
    (vlc_gl_sampler_UpdatePicture s source tm ret).2 = ret
    ∧ (vlc_gl_sampler_UpdatePicture s source tm ret).1
        = (vlc_gl_sampler_UpdatePicture s source tm 0).1
    ∧ ((vlc_gl_sampler_UpdatePicture s source tm ret).1).last_source_x_offset
        = source.i_x_offset
    ∧ ((vlc_gl_sampler_UpdatePicture s source tm ret).1).last_source_visible_width
        = source.i_visible_width
    ∧ ((vlc_gl_sampler_UpdatePicture s source tm ret).1).mtx_transform_defined
        = tm.isSome
    ∧ ((vlc_gl_sampler_UpdatePicture s source tm ret).1).mtx_all_defined
        = true :=
  fun s source tm ret =>
    ⟨rfl, rfl, (UpdatePicture_last_source s source tm ret).1,
      (UpdatePicture_last_source s source tm ret).2.2.1,
      UpdatePicture_transform_defined s source tm ret,
      UpdatePicture_defined s source tm ret⟩
